import Mathlib

/-!
Shallow embedding of `Backend/middleware/security.py` (class `SecurityMiddleware`)
from the Gurukul platform.

Modelling conventions:
* Python strings are Lean `String`s; the Python string operations used by the
  middleware (`lower`, `split(",")`, `strip`, substring `in`, `int(...)`) are
  re-implemented below by structural recursion on `List Char` so that every
  definition evaluates inside the kernel.
* The Redis client is modelled by `RedisState`: an association list for the
  `rate_limit:*` counter keyspace (key, count, ttl) plus three failure flags,
  one per operation actually issued by the middleware (`get`, `setex`, `incr`).
  A raised `redis` exception is an `Except.error ()`.
* `async` plays no role (every await is sequential), so the pipeline is a pure
  function from (redis state, request, downstream handler) to
  (response, redis state).
-/

/-- Python `s.lower()` (ASCII case folding, which is all the middleware needs:
patterns and header names are ASCII). -/
def strLower (s : String) : String := String.mk (s.data.map Char.toLower)

/-- Substring occurrence on character lists. -/
def containsSub (pat : List Char) : List Char → Bool
  | [] => pat.isEmpty
  | c :: rest => pat.isPrefixOf (c :: rest) || containsSub pat rest

/-- Python `pat in s` (substring containment). -/
def strContains (s pat : String) : Bool := containsSub pat.data s.data

/-- Splitting a character list at every comma; Python `s.split(",")` always
returns at least one piece, and so does this function. -/
def splitOnComma : List Char → List (List Char)
  | [] => [[]]
  | c :: rest =>
    let r := splitOnComma rest
    if c == ',' then [] :: r
    else
      match r with
      | [] => [[c]]
      | g :: gs => (c :: g) :: gs

/-- Python `s.split(",")`. -/
def pySplitComma (s : String) : List String := (splitOnComma s.data).map String.mk

/-- Whitespace trimming on character lists. -/
def trimChars (cs : List Char) : List Char :=
  ((cs.dropWhile Char.isWhitespace).reverse.dropWhile Char.isWhitespace).reverse

/-- Python `s.strip()`. -/
def pyStrip (s : String) : String := String.mk (trimChars s.data)

/-- Decimal digit value of a character, if it is a digit. -/
def digitVal? (c : Char) : Option Nat :=
  if '0' ≤ c && c ≤ '9' then some (c.toNat - 48) else none

/-- Accumulating decimal parser over a character list; fails on the first
non-digit. -/
def parseDigitsAux (acc : Nat) : List Char → Option Nat
  | [] => some acc
  | c :: rest =>
    match digitVal? c with
    | some d => parseDigitsAux (acc * 10 + d) rest
    | none => none

/-- A non-empty all-digit character list parsed as a `Nat`. -/
def parseDigits (cs : List Char) : Option Nat :=
  if cs.isEmpty then none else parseDigitsAux 0 cs

/-- Python `int(s)` as used on the `content-length` header: optional
surrounding whitespace, optional sign, decimal digits; `none` models the
`ValueError` that `int` raises on anything else.  (Python's extra leniency —
underscores between digits — is not modelled; no claim depends on it.) -/
def pyInt? (s : String) : Option Int :=
  match trimChars s.data with
  | '-' :: rest => (parseDigits rest).map (fun n => -(n : Int))
  | '+' :: rest => (parseDigits rest).map (fun n => (n : Int))
  | cs => (parseDigits cs).map (fun n => (n : Int))

/-- Starlette header lookup `request.headers.get(k)`: case-insensitive on the
header name, first matching entry. -/
def headerGet (hs : List (String × String)) (k : String) : Option String :=
  (hs.find? (fun p => strLower p.1 == strLower k)).map (fun p => p.2)

/-- The parts of a Starlette `Request` the middleware reads: `str(request.url)`
(the full URL), `request.url.path` (its path component), the header list, and
`request.client.host` (`none` models `request.client is None`). -/
structure Request where
  url : String
  path : String
  headers : List (String × String)
  client_host : Option String
deriving DecidableEq

/-- `SecurityMiddleware._get_client_ip` (security.py lines 173-184).  Python's
`headers.get` returns `None` for a missing header and `if x:` is false for
both `None` and the empty string, so the two cases are merged by defaulting to
`""`. -/
def get_client_ip (req : Request) : String :=
  let forwarded_for := (headerGet req.headers "X-Forwarded-For").getD ""
  if forwarded_for != "" then
    pyStrip ((pySplitComma forwarded_for).headD "")
  else
    let real_ip := (headerGet req.headers "X-Real-IP").getD ""
    if real_ip != "" then real_ip
    else req.client_host.getD "unknown"

/-- One row of the `self.rate_limits` table. -/
structure LimitCfg where
  requests : Nat
  window : Nat
deriving DecidableEq

/-- The `self.rate_limits` dict (security.py lines 25-29).  `dispatch` only
ever looks up the keys "default", "auth" and "api"; any other argument falls
through to the "default" row. -/
def rate_limits (limit_type : String) : LimitCfg :=
  if limit_type == "auth" then { requests := 5, window := 60 }
  else if limit_type == "api" then { requests := 1000, window := 3600 }
  else { requests := 100, window := 60 }

/-- The limit-class selection in `_check_rate_limit` (security.py lines
79-84): `"/auth" in endpoint` wins over `elif "/api" in endpoint`, else
"default". -/
def limit_type_of (endpoint : String) : String :=
  if strContains endpoint "/auth" then "auth"
  else if strContains endpoint "/api" then "api"
  else "default"

/-- The Redis counter store.  `entries` models the `rate_limit:*` counter
keyspace as (key, count, ttl-at-creation) triples; TTL expiry itself needs a
clock and is outside the model.  The `request_log:*` keys written by
`_log_request` live in a disjoint keyspace and are not represented.  The three
flags make the corresponding client call raise. -/
structure RedisState where
  entries : List (String × Nat × Nat)
  failGet : Bool := false
  failSetex : Bool := false
  failIncr : Bool := false
deriving DecidableEq

/-- Counter lookup in the store. -/
def storeGet (es : List (String × Nat × Nat)) (k : String) : Option Nat :=
  (es.find? (fun e => e.1 == k)).map (fun e => e.2.1)

/-- Redis `SETEX`: overwrite (or create) the key with the given value and
TTL. -/
def storeSet (es : List (String × Nat × Nat)) (k : String) (v ttl : Nat) :
    List (String × Nat × Nat) :=
  es.filter (fun e => e.1 != k) ++ [(k, v, ttl)]

/-- Redis `INCR`: increment the key, creating it at 1 with no TTL (recorded as
ttl 0) when absent — the middleware only issues `INCR` on keys it has just
read, so the creating branch is never reached from `dispatch`. -/
def storeIncr (es : List (String × Nat × Nat)) (k : String) :
    List (String × Nat × Nat) :=
  if (es.find? (fun e => e.1 == k)).isSome then
    es.map (fun e => if e.1 == k then (e.1, e.2.1 + 1, e.2.2) else e)
  else es ++ [(k, 1, 0)]

/-- `self.redis_client.get(key)`. -/
def redisGet (st : RedisState) (k : String) : Except Unit (Option Nat) :=
  if st.failGet then Except.error () else Except.ok (storeGet st.entries k)

/-- `self.redis_client.setex(key, ttl, v)`. -/
def redisSetex (st : RedisState) (k : String) (ttl v : Nat) :
    Except Unit RedisState :=
  if st.failSetex then Except.error ()
  else Except.ok { st with entries := storeSet st.entries k v ttl }

/-- `self.redis_client.incr(key)`. -/
def redisIncr (st : RedisState) (k : String) : Except Unit RedisState :=
  if st.failIncr then Except.error ()
  else Except.ok { st with entries := storeIncr st.entries k }

/-- The counter key `f"rate_limit:{client_ip}:{limit_type}"`. -/
def rate_key (client_ip limit_type : String) : String :=
  "rate_limit:" ++ client_ip ++ ":" ++ limit_type

/-- The body of the `try:` block of `SecurityMiddleware._check_rate_limit`
(security.py lines 75-102), with each Redis call a possible `Except.error`. -/
def check_rate_limit_core (st : RedisState) (req : Request) :
    Except Unit (Bool × RedisState) :=
  let client_ip := get_client_ip req
  let limit_type := limit_type_of req.path
  let limits := rate_limits limit_type
  let key := rate_key client_ip limit_type
  match redisGet st key with
  | Except.error e => Except.error e
  | Except.ok none =>
    match redisSetex st key limits.window 1 with
    | Except.error e => Except.error e
    | Except.ok st1 => Except.ok (true, st1)
  | Except.ok (some current_count) =>
    if current_count ≥ limits.requests then Except.ok (false, st)
    else
      match redisIncr st key with
      | Except.error e => Except.error e
      | Except.ok st1 => Except.ok (true, st1)

/-- `SecurityMiddleware._check_rate_limit` (security.py lines 70-106): skip
when no Redis client is configured, and the `except Exception` handler turns
any raised error into `True` with the store as the failed call left it (no
call before the failing one mutates the store, so it is unchanged). -/
def check_rate_limit (redis : Option RedisState) (req : Request) :
    Bool × Option RedisState :=
  match redis with
  | none => (true, none)
  | some st =>
    match check_rate_limit_core st req with
    | Except.error _ => (true, some st)
    | Except.ok (b, st1) => (b, some st1)

/-- The `suspicious_patterns` list (security.py lines 117-120). -/
def suspicious_patterns : List String :=
  ["<script", "javascript:", "data:text/html",
   "eval(", "document.cookie", "window.location"]

/-- The URL scan of `_validate_request` (lines 122-127): some pattern occurs
in `str(request.url).lower()`. -/
def url_suspicious (req : Request) : Bool :=
  suspicious_patterns.any (fun pattern => strContains (strLower req.url) pattern)

/-- The header scan of `_validate_request` (lines 129-135): some pattern
occurs in `f"{name}:{value}".lower()` for some header. -/
def headers_suspicious (req : Request) : Bool :=
  req.headers.any (fun hv =>
    suspicious_patterns.any (fun pattern =>
      strContains (strLower (hv.1 ++ ":" ++ hv.2)) pattern))

/-- The two pattern scans combined (the function returns `True` at line 137
only when both find nothing). -/
def pattern_checks (req : Request) : Bool :=
  !url_suspicious req && !headers_suspicious req

/-- `SecurityMiddleware._validate_request` (security.py lines 108-141).
`if content_length and int(content_length) > 10 * 1024 * 1024` short-circuits
on a missing (`None`) or empty header value; a non-empty value that `int`
cannot parse raises `ValueError`, which the `except Exception` handler at
line 139 turns into `True` (fail-open), skipping the pattern scans. -/
def validate_request (req : Request) : Bool :=
  match headerGet req.headers "content-length" with
  | some s =>
    if s != "" then
      match pyInt? s with
      | none => true
      | some n =>
        if n > 10 * 1024 * 1024 then false
        else pattern_checks req
    else pattern_checks req
  | none => pattern_checks req

/-- The parts of a response the middleware observes or produces: the status
code, the header list, and — for the middleware's own `JSONResponse` bodies —
the `error` and `retry_after` JSON fields.  Framework-supplied default headers
(e.g. content-type) are not modelled. -/
structure Resp where
  status : Nat
  headers : List (String × String) := []
  error : Option String := none
  retry_after : Option Nat := none
deriving DecidableEq

/-- The `security_headers` dict of `_add_security_headers` (security.py lines
145-166), in insertion order; the Python adjacent-string concatenations are
spelled out. -/
def security_headers : List (String × String) :=
  [("X-Content-Type-Options", "nosniff"),
   ("X-Frame-Options", "DENY"),
   ("X-XSS-Protection", "1; mode=block"),
   ("Strict-Transport-Security", "max-age=31536000; includeSubDomains"),
   ("Referrer-Policy", "strict-origin-when-cross-origin"),
   ("Content-Security-Policy",
    "default-src \x27self\x27; script-src \x27self\x27 \x27unsafe-inline\x27; style-src \x27self\x27 \x27unsafe-inline\x27; img-src \x27self\x27 data: https:; font-src \x27self\x27; connect-src \x27self\x27 https://*.supabase.co wss://*.supabase.co"),
   ("Permissions-Policy",
    "geolocation=(), microphone=(), camera=(), payment=(), usb=(), magnetometer=(), gyroscope=()"),
   ("Cache-Control", "no-store, no-cache, must-revalidate, proxy-revalidate"),
   ("Pragma", "no-cache"),
   ("Expires", "0")]

/-- Starlette `response.headers[k] = v` (`MutableHeaders.__setitem__`): after
the call exactly one entry (case-insensitively) carries the name `k`, with
value `v`.  Starlette overwrites the first matching entry in place and drops
duplicates; this model removes all matches and appends, which yields the same
header mapping (same keys, same values) and differs only in entry order,
which nothing observes. -/
def setHeader (hs : List (String × String)) (k v : String) :
    List (String × String) :=
  hs.filter (fun p => strLower p.1 != strLower k) ++ [(k, v)]

/-- The `for header, value in security_headers.items(): response.headers[header] = value`
loop, folded over an arbitrary pair list. -/
def applyHeaders (l : List (String × String)) (hs : List (String × String)) :
    List (String × String) :=
  l.foldl (fun acc kv => setHeader acc kv.1 kv.2) hs

/-- `SecurityMiddleware._add_security_headers` (security.py lines 143-171). -/
def add_security_headers (resp : Resp) : Resp :=
  { resp with headers := applyHeaders security_headers resp.headers }

/-- `SecurityMiddleware.dispatch` (security.py lines 31-68).  The control flow
of the `try:` body: `_check_rate_limit` first (429 short-circuit), then
`_validate_request` (400 short-circuit), then `call_next`; a raising
`call_next` is an `Except.error` and hits the outer `except` handler (500).
`_check_rate_limit` and `_validate_request` catch their own exceptions and so
never reach that handler; `_log_request` swallows its exceptions and writes
only `request_log:*` keys, outside the modelled counter keyspace, so it is
dropped from the model.  Note the three `JSONResponse` short-circuits are
returned without passing through `_add_security_headers`. -/
def dispatch (redis : Option RedisState) (req : Request)
    (call_next : Request → Except Unit Resp) : Resp × Option RedisState :=
  match check_rate_limit redis req with
  | (allowed, redis1) =>
    if !allowed then
      ({ status := 429, error := some "Rate limit exceeded",
         retry_after := some 60 }, redis1)
    else if !(validate_request req) then
      ({ status := 400, error := some "Invalid request format" }, redis1)
    else
      match call_next req with
      | Except.error _ =>
        ({ status := 500, error := some "Internal server error" }, redis1)
      | Except.ok resp => (add_security_headers resp, redis1)

/-- Case-insensitive response-header lookup (Starlette `Headers.get`). -/
def getHeader (hs : List (String × String)) (n : String) : Option String :=
  (hs.find? (fun p => strLower p.1 == strLower n)).map (fun p => p.2)

/-- The last value a pair list assigns to a (case-insensitive) name, if any. -/
def lookupLast (l : List (String × String)) (n : String) : Option String :=
  l.foldl (fun acc kv => if strLower kv.1 = strLower n then some kv.2 else acc)
    none

/-! ### Header-policy lemmas -/

/-- Unfolding case-insensitive lookup over a cons cell. -/
theorem getHeader_cons (p : String × String) (hs : List (String × String))
    (n : String) :
    getHeader (p :: hs) n =
      if strLower p.1 = strLower n then some p.2 else getHeader hs n := by
  by_cases h : strLower p.1 = strLower n
  · have h' : (strLower p.1 == strLower n) = true := beq_iff_eq.mpr h
    simp [getHeader, List.find?_cons, h', h]
  · have h' : (strLower p.1 == strLower n) = false := beq_eq_false_iff_ne.mpr h
    simp [getHeader, List.find?_cons, h', h]

/-- Looking a name up after `setHeader` sees the new value exactly when the
names agree case-insensitively, and is otherwise unchanged. -/
theorem getHeader_setHeader (hs : List (String × String)) (k v n : String) :
    getHeader (setHeader hs k v) n =
      if strLower n = strLower k then some v else getHeader hs n := by
  induction hs with
  | nil =>
    by_cases h : strLower n = strLower k
    · have h' : (strLower k == strLower n) = true := beq_iff_eq.mpr h.symm
      simp [getHeader, setHeader, List.find?, h', h]
    · have h' : (strLower k == strLower n) = false :=
        beq_eq_false_iff_ne.mpr (Ne.symm h)
      simp [getHeader, setHeader, List.find?, h', h]
  | cons hd tl ih =>
    by_cases hh : strLower hd.1 = strLower k
    · have hq : (strLower hd.1 != strLower k) = false := by
        simp [bne_iff_ne, hh]
      have hdrop : setHeader (hd :: tl) k v = setHeader tl k v := by
        simp [setHeader, List.filter_cons, hq]
      rw [hdrop, ih]
      by_cases h : strLower n = strLower k
      · simp [h]
      · have hn : ¬ strLower hd.1 = strLower n := by
          rw [hh]; exact fun hkn => h hkn.symm
        simp [h, getHeader_cons, hn]
    · have hq : (strLower hd.1 != strLower k) = true := by
        simp [bne_iff_ne, hh]
      have hkeep : setHeader (hd :: tl) k v = hd :: setHeader tl k v := by
        simp [setHeader, List.filter_cons, hq]
      rw [hkeep, getHeader_cons, getHeader_cons, ih]
      by_cases hn : strLower hd.1 = strLower n
      · have h : ¬ strLower n = strLower k := fun hc => hh (hn.trans hc)
        simp [hn, h]
      · simp [hn]

/-- `Option.or` with a `some` in second position absorbs any further
fallback. -/
theorem option_or_some_absorb (A : Option String) (b : String)
    (c : Option String) : (A.or (some b)).or c = A.or (some b) := by
  cases A <;> rfl

/-- `Option.or` with an empty fallback is the identity. -/
theorem option_or_none (A : Option String) : A.or none = A := by
  cases A <;> rfl

/-- A left fold of the last-match accumulator splits into the fold over the
list and the initial value. -/
theorem foldl_pick (l : List (String × String)) (n : String)
    (init : Option String) :
    l.foldl (fun acc kv =>
        if strLower kv.1 = strLower n then some kv.2 else acc) init
      = Option.or (lookupLast l n) init := by
  induction l generalizing init with
  | nil => simp [lookupLast, Option.or]
  | cons kv t ih =>
    simp only [List.foldl_cons, lookupLast]
    by_cases hc : strLower kv.1 = strLower n
    · rw [if_pos hc, if_pos hc, ih (some kv.2), option_or_some_absorb]
    · rw [if_neg hc, if_neg hc]
      exact ih init

/-- Lookup after the header-setting fold: the last value the applied list
assigns to the name, else the original lookup. -/
theorem getHeader_applyHeaders (l : List (String × String))
    (hs : List (String × String)) (n : String) :
    getHeader (applyHeaders l hs) n =
      Option.or (lookupLast l n) (getHeader hs n) := by
  induction l generalizing hs with
  | nil => simp [applyHeaders, lookupLast, Option.or]
  | cons kv t ih =>
    have hstep : applyHeaders (kv :: t) hs
        = applyHeaders t (setHeader hs kv.1 kv.2) := rfl
    have hl : lookupLast (kv :: t) n =
        Option.or (lookupLast t n)
          (if strLower kv.1 = strLower n then some kv.2 else none) := by
      show List.foldl _ _ t = _
      simpa using foldl_pick t n
        (if strLower kv.1 = strLower n then some kv.2 else none)
    rw [hstep, ih, getHeader_setHeader, hl]
    by_cases hc : strLower n = strLower kv.1
    · rw [if_pos hc, if_pos hc.symm, option_or_some_absorb]
    · rw [if_neg hc, if_neg (fun e => hc e.symm), option_or_none]

/-- The last (and only) value the security-header table assigns to
X-Frame-Options. -/
theorem lookupLast_security_xfo :
    lookupLast security_headers "X-Frame-Options" = some "DENY" := by decide

/-- The last (and only) value the security-header table assigns to
X-Content-Type-Options. -/
theorem lookupLast_security_xcto :
    lookupLast security_headers "X-Content-Type-Options" = some "nosniff" := by
  decide

/-- Every response that passes through `_add_security_headers` answers
X-Frame-Options with DENY. -/
theorem getHeader_add_xfo (resp : Resp) :
    getHeader (add_security_headers resp).headers "X-Frame-Options"
      = some "DENY" := by
  show getHeader (applyHeaders security_headers resp.headers) _ = _
  rw [getHeader_applyHeaders, lookupLast_security_xfo]; rfl

/-- Every response that passes through `_add_security_headers` answers
X-Content-Type-Options with nosniff. -/
theorem getHeader_add_xcto (resp : Resp) :
    getHeader (add_security_headers resp).headers "X-Content-Type-Options"
      = some "nosniff" := by
  show getHeader (applyHeaders security_headers resp.headers) _ = _
  rw [getHeader_applyHeaders, lookupLast_security_xcto]; rfl

/-- Claim C9: applying the header policy twice yields the same header mapping
as applying it once — for every response and every header name the two agree
(re-application overwrites rather than duplicates).  `_add_security_headers`
is a total Lean function of the response alone, so it never fails and is
independent of request content. -/
theorem add_security_headers_idempotent (r : Resp) (n : String) :
    getHeader (add_security_headers (add_security_headers r)).headers n
      = getHeader (add_security_headers r).headers n := by
  show getHeader
      (applyHeaders security_headers (applyHeaders security_headers r.headers)) n
      = getHeader (applyHeaders security_headers r.headers) n
  rw [getHeader_applyHeaders, getHeader_applyHeaders]
  cases lookupLast security_headers n <;> rfl

/-- A downstream handler that returns a bare 200 response. -/
def cnOk200 : Request → Except Unit Resp := fun _ => Except.ok { status := 200 }

/-- A downstream handler that raises. -/
def cnRaise : Request → Except Unit Resp := fun _ => Except.error ()

/-- A pattern-free request from client 1.1.1.1. -/
def wreqClean : Request :=
  { url := "http://h/items", path := "/items", headers := [],
    client_host := some "1.1.1.1" }

/-- A request from client 1.1.1.1 whose URL contains a suspicious pattern. -/
def wreqBad : Request :=
  { url := "http://h/x?q=<script>", path := "/x", headers := [],
    client_host := some "1.1.1.1" }

/-- A store in which client 1.1.1.1 has exhausted the default class. -/
def wstFull : RedisState :=
  { entries := [("rate_limit:1.1.1.1:default", 100, 60)] }

/-- Claim C2 counterexample: the short-circuit 400 validation response is
returned without the security header set — both X-Frame-Options and
X-Content-Type-Options are absent, contradicting the claim that every
response carries them. -/
def cexC2req : Request :=
  { url := "http://h/login?next=javascript:alert(1)", path := "/login",
    headers := [], client_host := some "2.2.2.2" }

/-- Claim C2 counterexample theorem (see `cexC2req`). -/
theorem security_headers_on_rejections_counterexample :
    (dispatch none cexC2req cnOk200).1.status = 400 ∧
    getHeader (dispatch none cexC2req cnOk200).1.headers "X-Frame-Options"
      = none ∧
    getHeader (dispatch none cexC2req cnOk200).1.headers
      "X-Content-Type-Options" = none := by decide

/-- Claim C2 (amended): only the response obtained from the downstream
handler passes through the header policy, and that response answers
X-Frame-Options with DENY and X-Content-Type-Options with nosniff; the
short-circuit 429, 400 and 500 responses are returned without the security
header set. -/
theorem dispatch_security_headers (redis : Option RedisState) (req : Request)
    (call_next : Request → Except Unit Resp) :
    (∀ resp r1, check_rate_limit redis req = (true, r1) →
      validate_request req = true → call_next req = Except.ok resp →
      (dispatch redis req call_next).1 = add_security_headers resp ∧
      getHeader (dispatch redis req call_next).1.headers "X-Frame-Options"
        = some "DENY" ∧
      getHeader (dispatch redis req call_next).1.headers
        "X-Content-Type-Options" = some "nosniff") ∧
    (∀ r1, check_rate_limit redis req = (false, r1) →
      getHeader (dispatch redis req call_next).1.headers "X-Frame-Options"
        = none ∧
      getHeader (dispatch redis req call_next).1.headers
        "X-Content-Type-Options" = none) ∧
    (∀ r1, check_rate_limit redis req = (true, r1) →
      validate_request req = false →
      getHeader (dispatch redis req call_next).1.headers "X-Frame-Options"
        = none ∧
      getHeader (dispatch redis req call_next).1.headers
        "X-Content-Type-Options" = none) ∧
    (∀ r1, check_rate_limit redis req = (true, r1) →
      validate_request req = true → call_next req = Except.error () →
      getHeader (dispatch redis req call_next).1.headers "X-Frame-Options"
        = none ∧
      getHeader (dispatch redis req call_next).1.headers
        "X-Content-Type-Options" = none) := by
  refine ⟨?_, ?_, ?_, ?_⟩
  · intro resp r1 h hv hcn
    simp [dispatch, h, hv, hcn, getHeader_add_xfo, getHeader_add_xcto]
  · intro r1 h
    simp [dispatch, h]
    exact ⟨rfl, rfl⟩
  · intro r1 h hv
    simp [dispatch, h, hv]
    exact ⟨rfl, rfl⟩
  · intro r1 h hv hcn
    simp [dispatch, h, hv, hcn]
    exact ⟨rfl, rfl⟩

/-- Claim C2 witness: the four branches of `dispatch_security_headers` at
concrete inputs. -/
theorem dispatch_security_headers_witness :
    getHeader (dispatch none wreqClean cnOk200).1.headers "X-Frame-Options"
      = some "DENY" ∧
    getHeader (dispatch (some wstFull) wreqClean cnOk200).1.headers
      "X-Frame-Options" = none ∧
    getHeader (dispatch none wreqBad cnOk200).1.headers "X-Frame-Options"
      = none ∧
    getHeader (dispatch none wreqClean cnRaise).1.headers "X-Frame-Options"
      = none := by
  refine ⟨?_, ?_, ?_, ?_⟩
  · exact ((dispatch_security_headers none wreqClean cnOk200).1
      { status := 200 } none rfl (by decide) rfl).2.1
  · exact ((dispatch_security_headers (some wstFull) wreqClean cnOk200).2.1
      (some wstFull) (by decide)).1
  · exact ((dispatch_security_headers none wreqBad cnOk200).2.2.1
      none rfl (by decide)).1
  · exact ((dispatch_security_headers none wreqClean cnRaise).2.2.2
      none rfl (by decide) rfl).1

/-- Claim C1 counterexample input: a request that fails validation (its URL
contains a suspicious pattern); no client headers, unknown peer. -/
def cexC1req : Request :=
  { url := "http://h/x?q=<script>alert(1)</script>", path := "/x",
    headers := [], client_host := none }

/-- Store in which `cexC1req`'s default-class counter is already at the
limit. -/
def cexC1stFull : RedisState :=
  { entries := [("rate_limit:unknown:default", 100, 60)] }

/-- Empty counter store. -/
def cexC1stEmpty : RedisState := { entries := [] }

/-- Claim C1 counterexample theorem: a request that fails validation is
nevertheless rate-limited first.  With its counter at the limit the pipeline
answers 429 instead of the claimed terminal 400, and with an empty store the
400 answer leaves behind a freshly created counter — so the rate limiter is
consulted and the counter read and written before validation. -/
theorem pipeline_order_counterexample :
    validate_request cexC1req = false ∧
    (dispatch (some cexC1stFull) cexC1req cnOk200).1.status = 429 ∧
    (dispatch (some cexC1stEmpty) cexC1req cnOk200).1.status = 400 ∧
    (dispatch (some cexC1stEmpty) cexC1req cnOk200).2 =
      some { cexC1stEmpty with
             entries := [("rate_limit:unknown:default", 1, 60)] } := by decide

/-- Claim C1 (amended): the pipeline consults the RateLimiter before the
RequestValidator.  A rate-limited request receives the terminal 429 without
the validator being consulted, and a request that fails validation receives
the terminal 400 only after the rate-limit check has passed — with whatever
counter reads and writes that check performed. -/
theorem dispatch_rate_limit_before_validation (redis : Option RedisState)
    (req : Request) (call_next : Request → Except Unit Resp) :
    (∀ r1, check_rate_limit redis req = (false, r1) →
      dispatch redis req call_next =
        ({ status := 429, error := some "Rate limit exceeded",
           retry_after := some 60 }, r1)) ∧
    (∀ r1, check_rate_limit redis req = (true, r1) →
      validate_request req = false →
      dispatch redis req call_next =
        ({ status := 400, error := some "Invalid request format" }, r1)) := by
  constructor
  · intro r1 h
    simp [dispatch, h]
  · intro r1 h hv
    simp [dispatch, h, hv]

/-- Claim C1 witness: both branches of
`dispatch_rate_limit_before_validation` at concrete inputs. -/
theorem dispatch_rate_limit_before_validation_witness :
    dispatch (some wstFull) wreqBad cnOk200 =
      ({ status := 429, error := some "Rate limit exceeded",
         retry_after := some 60 }, some wstFull) ∧
    dispatch none wreqBad cnOk200 =
      ({ status := 400, error := some "Invalid request format" }, none) := by
  constructor
  · exact (dispatch_rate_limit_before_validation (some wstFull) wreqBad
      cnOk200).1 (some wstFull) (by decide)
  · exact (dispatch_rate_limit_before_validation none wreqBad cnOk200).2
      none rfl (by decide)

/-- Claim C3 counterexample input: an api-class request from an exhausted
client. -/
def cexC3req : Request :=
  { url := "http://h/api/v1/items", path := "/api/v1/items", headers := [],
    client_host := some "3.3.3.3" }

/-- Store in which `cexC3req`'s api-class counter is at the 1000 limit. -/
def cexC3st : RedisState :=
  { entries := [("rate_limit:3.3.3.3:api", 1000, 3600)] }

/-- Claim C3 counterexample theorem: an api-class request rejected by the
rate limiter gets `retry_after = 60` although the api window is 3600
seconds, contradicting the claim that the hint equals the windowSeconds of
the exceeded class. -/
theorem retry_after_counterexample :
    limit_type_of cexC3req.path = "api" ∧
    (rate_limits "api").window = 3600 ∧
    (dispatch (some cexC3st) cexC3req cnOk200).1.status = 429 ∧
    (dispatch (some cexC3st) cexC3req cnOk200).1.retry_after = some 60 ∧
    (60 : Nat) ≠ 3600 := by decide

/-- Claim C3 (amended): every rate-limit rejection carries the hard-coded
retry hint 60 seconds, whatever the limit class of the request; this
coincides with the window size for the default and auth classes (60 s) but
not for the api class (3600 s). -/
theorem dispatch_retry_after_constant (redis : Option RedisState)
    (req : Request) (call_next : Request → Except Unit Resp) :
    (∀ r1, check_rate_limit redis req = (false, r1) →
      (dispatch redis req call_next).1.status = 429 ∧
      (dispatch redis req call_next).1.retry_after = some 60) ∧
    (rate_limits "default").window = 60 ∧
    (rate_limits "auth").window = 60 ∧
    (rate_limits "api").window = 3600 := by
  refine ⟨?_, by decide, by decide, by decide⟩
  intro r1 h
  simp [dispatch, h]

/-- Claim C3 witness: `dispatch_retry_after_constant` at a concrete
rate-limited input. -/
theorem dispatch_retry_after_constant_witness :
    (dispatch (some wstFull) wreqClean cnOk200).1.status = 429 ∧
    (dispatch (some wstFull) wreqClean cnOk200).1.retry_after = some 60 := by
  exact (dispatch_retry_after_constant (some wstFull) wreqClean cnOk200).1
    (some wstFull) (by decide)

/-- The fixed-window step as the spec states it (section 4.1, steps 3-6):
read the counter for the key; if absent create it at 1 with TTL = the class
window and admit; if below the class maxRequests increment and admit; else
reject and leave the store unchanged.  Written from the spec text, to be
compared with `check_rate_limit` from the source. -/
def spec_fixed_window_step (st : RedisState) (key : String) (cfg : LimitCfg) :
    Bool × RedisState :=
  match storeGet st.entries key with
  | none =>
    (true, { st with entries := storeSet st.entries key 1 cfg.window })
  | some c =>
    if c < cfg.requests then
      (true, { st with entries := storeIncr st.entries key })
    else
      (false, st)

/-- Claim C4: with a reachable counter store (no operation raises),
`_check_rate_limit` follows the fixed-window algorithm on the key for
(identity, class): an absent entry is created at 1 with TTL equal to the
class window and the request is admitted; an entry strictly below the class
maxRequests is incremented by one and the request is admitted; an entry at or
above maxRequests leaves the store unchanged and the request is rejected. -/
theorem check_rate_limit_fixed_window (st : RedisState) (req : Request)
    (hg : st.failGet = false) (hsx : st.failSetex = false)
    (hin : st.failIncr = false) :
    check_rate_limit (some st) req =
      ((spec_fixed_window_step st
          (rate_key (get_client_ip req) (limit_type_of req.path))
          (rate_limits (limit_type_of req.path))).1,
        some (spec_fixed_window_step st
          (rate_key (get_client_ip req) (limit_type_of req.path))
          (rate_limits (limit_type_of req.path))).2) := by
  cases hsg : storeGet st.entries
      (rate_key (get_client_ip req) (limit_type_of req.path)) with
  | none =>
    simp [check_rate_limit, check_rate_limit_core, redisGet, redisSetex,
      spec_fixed_window_step, hg, hsx, hsg]
  | some c =>
    by_cases hlt : c < (rate_limits (limit_type_of req.path)).requests
    · have hge : ¬ c ≥ (rate_limits (limit_type_of req.path)).requests :=
        Nat.not_le.mpr hlt
      simp [check_rate_limit, check_rate_limit_core, redisGet, redisIncr,
        spec_fixed_window_step, hg, hin, hsg, hlt, hge]
    · have hge : c ≥ (rate_limits (limit_type_of req.path)).requests :=
        Nat.not_lt.mp hlt
      simp [check_rate_limit, check_rate_limit_core, redisGet,
        spec_fixed_window_step, hg, hsg, hlt, hge]

/-- Claim C4 witness: the three fixed-window branches at concrete stores. -/
theorem check_rate_limit_fixed_window_witness :
    check_rate_limit (some { entries := [] }) wreqClean
      = (true, some { entries := [("rate_limit:1.1.1.1:default", 1, 60)] }) ∧
    check_rate_limit
        (some { entries := [("rate_limit:1.1.1.1:default", 3, 60)] }) wreqClean
      = (true, some { entries := [("rate_limit:1.1.1.1:default", 4, 60)] }) ∧
    check_rate_limit (some wstFull) wreqClean = (false, some wstFull) := by
  refine ⟨?_, ?_, ?_⟩
  · exact (check_rate_limit_fixed_window { entries := [] } wreqClean
      rfl rfl rfl).trans (by decide)
  · exact (check_rate_limit_fixed_window
      { entries := [("rate_limit:1.1.1.1:default", 3, 60)] } wreqClean
      rfl rfl rfl).trans (by decide)
  · exact (check_rate_limit_fixed_window wstFull wreqClean
      rfl rfl rfl).trans (by decide)

/-- Claim C5: with no counter store configured the rate-limit check admits
the request, and any error raised by a store operation is caught inside
`_check_rate_limit`, which then admits the request with the store unchanged.
`check_rate_limit` returns a plain pair — no `Except` escapes to
`dispatch`. -/
theorem check_rate_limit_fail_open (req : Request) (st : RedisState) :
    check_rate_limit none req = (true, none) ∧
    (∀ e : Unit, check_rate_limit_core st req = Except.error e →
      check_rate_limit (some st) req = (true, some st)) ∧
    (st.failGet = true → check_rate_limit (some st) req = (true, some st)) := by
  refine ⟨rfl, ?_, ?_⟩
  · intro e he
    simp [check_rate_limit, he]
  · intro hf
    have he : check_rate_limit_core st req = Except.error () := by
      simp [check_rate_limit_core, redisGet, hf]
    simp [check_rate_limit, he]

/-- A store whose client calls all raise. -/
def wstFailing : RedisState :=
  { entries := [("rate_limit:1.1.1.1:default", 7, 60)],
    failGet := true, failSetex := true, failIncr := true }

/-- Claim C5 witness: no store, and a raising store, at concrete inputs. -/
theorem check_rate_limit_fail_open_witness :
    check_rate_limit none wreqClean = (true, none) ∧
    check_rate_limit (some wstFailing) wreqClean = (true, some wstFailing) := by
  have h := check_rate_limit_fail_open wreqClean wstFailing
  exact ⟨h.1, h.2.2 rfl⟩

/-- Claim C6: the limit class is a function of the path alone — a path
containing "/auth" maps to auth, a path containing "/api" but not "/auth"
maps to api, every other path maps to default, and the result is always
exactly one of the three classes. -/
theorem limit_type_of_classes (path : String) :
    (strContains path "/auth" = true → limit_type_of path = "auth") ∧
    (strContains path "/auth" = false → strContains path "/api" = true →
      limit_type_of path = "api") ∧
    (strContains path "/auth" = false → strContains path "/api" = false →
      limit_type_of path = "default") ∧
    (limit_type_of path = "auth" ∨ limit_type_of path = "api" ∨
      limit_type_of path = "default") := by
  refine ⟨?_, ?_, ?_, ?_⟩
  · intro h; simp [limit_type_of, h]
  · intro h1 h2; simp [limit_type_of, h1, h2]
  · intro h1 h2; simp [limit_type_of, h1, h2]
  · by_cases h1 : strContains path "/auth" <;>
      by_cases h2 : strContains path "/api" <;>
      simp [limit_type_of, h1, h2]

/-- Claim C6 witness: the three classes, and a path containing both
substrings mapping to the single class auth. -/
theorem limit_type_of_classes_witness :
    limit_type_of "/auth/login" = "auth" ∧
    limit_type_of "/api/v1/items" = "api" ∧
    limit_type_of "/health" = "default" ∧
    limit_type_of "/api/auth/login" = "auth" := by
  refine ⟨?_, ?_, ?_, ?_⟩
  · exact (limit_type_of_classes "/auth/login").1 (by decide)
  · exact (limit_type_of_classes "/api/v1/items").2.1 (by decide) (by decide)
  · exact (limit_type_of_classes "/health").2.2.1 (by decide) (by decide)
  · exact (limit_type_of_classes "/api/auth/login").1 (by decide)

/-- `int("")` raises (Python), modelled as `none`. -/
theorem pyInt_empty : pyInt? "" = none := rfl

/-- If either pattern scan fires, the combined check is false. -/
theorem pattern_checks_false (req : Request)
    (h : (url_suspicious req || headers_suspicious req) = true) :
    pattern_checks req = false := by
  cases hu : url_suspicious req with
  | true => simp [pattern_checks, hu]
  | false =>
    rw [hu] at h
    simp at h
    simp [pattern_checks, h]

/-- If neither pattern scan fires, the combined check is true. -/
theorem pattern_checks_true (req : Request) (hu : url_suspicious req = false)
    (hh : headers_suspicious req = false) : pattern_checks req = true := by
  simp [pattern_checks, hu, hh]

/-- Claim C8: a request declaring a numeric content-length strictly above
10 * 1024 * 1024 bytes fails validation; a request declaring a numeric
length at or below the ceiling, or carrying no content-length header at all,
is decided by the pattern scans alone — it is never rejected on the basis of
body size. -/
theorem validate_request_content_length (req : Request) :
    (∀ s n, headerGet req.headers "content-length" = some s →
      pyInt? s = some n → n > 10 * 1024 * 1024 →
      validate_request req = false) ∧
    (∀ s n, headerGet req.headers "content-length" = some s →
      pyInt? s = some n → n ≤ 10 * 1024 * 1024 →
      validate_request req = pattern_checks req) ∧
    (headerGet req.headers "content-length" = none →
      validate_request req = pattern_checks req) := by
  refine ⟨?_, ?_, ?_⟩
  · intro s n h1 h2 h3
    have hs : s ≠ "" := by
      intro he
      rw [he, pyInt_empty] at h2
      exact Option.noConfusion h2
    have hbne : (s != "") = true := bne_iff_ne.mpr hs
    have hch : validate_request req =
        if n > 10 * 1024 * 1024 then false else pattern_checks req := by
      simp [validate_request, h1, hbne, h2]
    rw [hch, if_pos h3]
  · intro s n h1 h2 h3
    have hs : s ≠ "" := by
      intro he
      rw [he, pyInt_empty] at h2
      exact Option.noConfusion h2
    have hbne : (s != "") = true := bne_iff_ne.mpr hs
    have h4 : ¬ n > 10 * 1024 * 1024 := not_lt.mpr h3
    have hch : validate_request req =
        if n > 10 * 1024 * 1024 then false else pattern_checks req := by
      simp [validate_request, h1, hbne, h2]
    rw [hch, if_neg h4]
  · intro h1
    simp [validate_request, h1]

/-- A request declaring one byte more than the 10 MiB ceiling. -/
def wreqBig : Request :=
  { url := "http://h/upload", path := "/upload",
    headers := [("Content-Length", "10485761")], client_host := some "1.1.1.1" }

/-- A request declaring exactly the 10 MiB ceiling. -/
def wreqSmall : Request :=
  { url := "http://h/upload", path := "/upload",
    headers := [("Content-Length", "10485760")], client_host := some "1.1.1.1" }

/-- Claim C8 witness: the three content-length branches at concrete
requests. -/
theorem validate_request_content_length_witness :
    validate_request wreqBig = false ∧
    validate_request wreqSmall = pattern_checks wreqSmall ∧
    validate_request wreqClean = pattern_checks wreqClean := by
  refine ⟨?_, ?_, ?_⟩
  · exact (validate_request_content_length wreqBig).1 "10485761" 10485761
      (by decide) (by decide) (by decide)
  · exact (validate_request_content_length wreqSmall).2.1 "10485760" 10485760
      (by decide) (by decide) (by decide)
  · exact (validate_request_content_length wreqClean).2.2 rfl

/-- Claim C7 counterexample input: the lower-cased URL contains
"javascript:", and the content-length header holds a non-numeric value. -/
def cexC7req : Request :=
  { url := "http://h/a?x=javascript:alert(1)", path := "/a",
    headers := [("content-length", "oops")], client_host := some "4.4.4.4" }

/-- Claim C7 counterexample theorem: the URL carries a suspicious pattern,
yet validation admits the request — `int("oops")` raises, and the
`except Exception` handler returns True before the pattern scans run. -/
theorem validate_suspicious_counterexample :
    strContains (strLower cexC7req.url) "javascript:" = true ∧
    validate_request cexC7req = true := by decide

/-- Claim C7 (amended): provided the content-length header, when present and
non-empty, parses as an integer (otherwise `int()` raises and validation
fails open to True), a request whose lower-cased URL or lower-cased
name:value header pairs contain a suspicious pattern is rejected; and —
provided additionally every parsed length is at most 10 MiB — an
otherwise-identical request with no pattern in URL or headers is admitted. -/
theorem validate_request_patterns (req : Request)
    (hparse : ∀ s, headerGet req.headers "content-length" = some s →
      s ≠ "" → (pyInt? s).isSome) :
    ((url_suspicious req || headers_suspicious req) = true →
      validate_request req = false) ∧
    ((∀ s n, headerGet req.headers "content-length" = some s →
        pyInt? s = some n → n ≤ 10 * 1024 * 1024) →
      url_suspicious req = false → headers_suspicious req = false →
      validate_request req = true) := by
  cases hcl : headerGet req.headers "content-length" with
  | none =>
    constructor
    · intro hsusp
      rw [(validate_request_content_length req).2.2 hcl]
      exact pattern_checks_false req hsusp
    · intro _ hu hh
      rw [(validate_request_content_length req).2.2 hcl]
      exact pattern_checks_true req hu hh
  | some s =>
    by_cases hse : s = ""
    · have hveq : validate_request req = pattern_checks req := by
        subst hse
        simp [validate_request, hcl]
      constructor
      · intro hsusp
        rw [hveq]; exact pattern_checks_false req hsusp
      · intro _ hu hh
        rw [hveq]; exact pattern_checks_true req hu hh
    · obtain ⟨n, hn⟩ := Option.isSome_iff_exists.mp (hparse s hcl hse)
      constructor
      · intro hsusp
        by_cases hbig : n > 10 * 1024 * 1024
        · exact (validate_request_content_length req).1 s n hcl hn hbig
        · have hle : n ≤ 10 * 1024 * 1024 := not_lt.mp hbig
          rw [(validate_request_content_length req).2.1 s n hcl hn hle]
          exact pattern_checks_false req hsusp
      · intro hsize hu hh
        rw [(validate_request_content_length req).2.1 s n hcl hn
          (hsize s n rfl hn)]
        exact pattern_checks_true req hu hh

/-- A clean request with a well-formed content-length. -/
def wreqCleanLen : Request :=
  { url := "http://h/items", path := "/items",
    headers := [("Content-Length", "42")], client_host := some "1.1.1.1" }

/-- A suspicious request with a well-formed content-length. -/
def wreqBadLen : Request :=
  { url := "http://h/x?q=<script>", path := "/x",
    headers := [("Content-Length", "42")], client_host := some "1.1.1.1" }

/-- Claim C7 witness: `validate_request_patterns` at concrete inputs —
rejection with a pattern, admission without. -/
theorem validate_request_patterns_witness :
    validate_request wreqBadLen = false ∧
    validate_request wreqCleanLen = true := by
  have hbl : headerGet wreqBadLen.headers "content-length" = some "42" := by
    decide
  have hclen : headerGet wreqCleanLen.headers "content-length" = some "42" := by
    decide
  constructor
  · refine (validate_request_patterns wreqBadLen ?_).1 (by decide)
    intro s h hs
    rw [hbl] at h
    injection h with h2
    subst h2
    decide
  · refine (validate_request_patterns wreqCleanLen ?_).2 ?_ (by decide)
      (by decide)
    · intro s h hs
      rw [hclen] at h
      injection h with h2
      subst h2
      decide
    · intro s n h hp
      rw [hclen] at h
      injection h with h2
      subst h2
      rw [show pyInt? "42" = some 42 from by decide] at hp
      injection hp with h3
      subst h3
      decide

/-- Claim C10 counterexample input: X-Forwarded-For present with an empty
value, X-Real-IP set, peer known. -/
def cexC10req : Request :=
  { url := "http://h/", path := "/",
    headers := [("X-Forwarded-For", ""), ("X-Real-IP", "9.9.9.9")],
    client_host := some "10.0.0.1" }

/-- Claim C10 counterexample theorem: X-Forwarded-For is present, so the
claim predicts the identity "" (the trimmed first comma-entry of the empty
value), but the code treats the falsy header value as absent and resolves
the X-Real-IP value instead. -/
theorem get_client_ip_counterexample :
    headerGet cexC10req.headers "X-Forwarded-For" = some "" ∧
    pyStrip ((pySplitComma "").headD "") = "" ∧
    get_client_ip cexC10req = "9.9.9.9" ∧
    ("9.9.9.9" : String) ≠ "" := by decide

/-- Claim C10 (amended): the client identity is resolved in order — the
trimmed first comma-separated entry of X-Forwarded-For when that header is
present with a non-empty value; otherwise the X-Real-IP value when present
and non-empty; otherwise the direct peer address when known; otherwise
"unknown".  In particular X-Real-IP takes precedence over the direct peer
address. -/
theorem get_client_ip_resolution (req : Request) :
    (∀ s, headerGet req.headers "X-Forwarded-For" = some s → s ≠ "" →
      get_client_ip req = pyStrip ((pySplitComma s).headD "")) ∧
    ((headerGet req.headers "X-Forwarded-For").getD "" = "" →
      ∀ t, headerGet req.headers "X-Real-IP" = some t → t ≠ "" →
        get_client_ip req = t) ∧
    ((headerGet req.headers "X-Forwarded-For").getD "" = "" →
      (headerGet req.headers "X-Real-IP").getD "" = "" →
      get_client_ip req = req.client_host.getD "unknown") := by
  refine ⟨?_, ?_, ?_⟩
  · intro s h hs
    have hbne : (s != "") = true := bne_iff_ne.mpr hs
    simp [get_client_ip, h, hbne]
  · intro h1 t h2 ht
    have hbne : (t != "") = true := bne_iff_ne.mpr ht
    simp [get_client_ip, h1, h2, hbne]
  · intro h1 h2
    simp [get_client_ip, h1, h2]

/-- A request carrying a forwarded-for chain. -/
def wreqXff : Request :=
  { url := "http://h/", path := "/",
    headers := [("X-Forwarded-For", "1.2.3.4, 5.6.7.8")],
    client_host := some "10.0.0.1" }

/-- A request carrying only X-Real-IP. -/
def wreqReal : Request :=
  { url := "http://h/", path := "/", headers := [("X-Real-IP", "9.9.9.9")],
    client_host := some "10.0.0.1" }

/-- A request carrying neither identity header. -/
def wreqPeer : Request :=
  { url := "http://h/", path := "/", headers := [],
    client_host := some "10.0.0.1" }

/-- Claim C10 witness: the three resolution steps at concrete requests. -/
theorem get_client_ip_resolution_witness :
    get_client_ip wreqXff = "1.2.3.4" ∧
    get_client_ip wreqReal = "9.9.9.9" ∧
    get_client_ip wreqPeer = "10.0.0.1" := by
  refine ⟨?_, ?_, ?_⟩
  · exact ((get_client_ip_resolution wreqXff).1 "1.2.3.4, 5.6.7.8"
      (by decide) (by decide)).trans (by decide)
  · exact (get_client_ip_resolution wreqReal).2.1 (by decide) "9.9.9.9"
      (by decide) (by decide)
  · exact ((get_client_ip_resolution wreqPeer).2.2 (by decide)
      (by decide)).trans (by decide)
